import Mathlib

/-!
Verification of the multi-agent coordination engine.

This file shallowly embeds the coordination core of the repository:
the shared `AgentState` record and its methods (`add_message`,
`increment_iteration`), the `GraphCoordinator` execution engine
(`route_next`, the `execute` while-loop), the handler adapter
`data_agent_node`, the keyword heuristics of `CustomerDataAgent`
(`extract_customer_id` and the operation inference in `process`) and of
`SupportAgent.assess_priority`, and the `MessageBus`
(`send_message`, `receive_message`).

Python dictionaries are embedded as association lists, Python `None` as
`Option`, raised exceptions as `Except`, and the wall clock
(`datetime.now().isoformat()`) as an explicit timestamp argument.
The `execute` while-loop, which in Python may not terminate for
pathological node functions, is embedded as a fuel-indexed iterate
`execN` of the exact loop body: `execN c n s` is the state after at most
`n` iterations of the Python loop, and `loopCond` is the loop's guard.
-/

/-- A Python value appearing in the ad hoc dictionary payloads that the
agents attach to messages (`data=` arguments). -/
inductive PyVal where
  | str (s : String)
  | nat (n : Nat)
  | bool (b : Bool)
  | none_
  | dict (entries : List (String × PyVal))
  | list (items : List PyVal)

/-- A Python `dict` used as a structured message payload. -/
abbrev PyDict := List (String × PyVal)

/-- Models Python `str.lower()` (the source only lowercases ASCII text). -/
def pyLower (s : String) : String := String.mk (s.data.map Char.toLower)

/-- `listInfix pat l` is true when `pat` occurs contiguously inside `l`;
together with `pyLower` this models Python's `keyword in query.lower()`. -/
def listInfix (pat : List Char) : List Char → Bool
  | [] => pat.isEmpty
  | c :: t => pat.isPrefixOf (c :: t) || listInfix pat t

/-- Models Python's substring test `pat in s`. -/
def pyContains (s pat : String) : Bool := listInfix pat.data s.data

/-- One entry of `AgentState.messages` (see `AgentState.add_message`):
`{"timestamp": ..., "from": ..., "to": ..., "content": ..., "data": ...}`. -/
structure MessageEntry where
  timestamp : String
  from_agent : String
  to_agent : String
  content : String
  data : PyDict

/-- One entry of `AgentState.coordination_history`:
`{"step": ..., "action": ..., "message": ...}`. -/
structure HistEntry where
  step : Nat
  action : String
  message : String
deriving DecidableEq

/-- A customer record returned by the record store (MCP server). -/
structure Customer where
  id : Nat
  name : String
  status : String
  email : String := ""
deriving DecidableEq

/-- What `data_agent_node` stores into `state.customer_data`: either the
`result["customer"]` dict itself or the wrapper `{"customers": [...]}`. -/
inductive CustomerPayload where
  | single (c : Customer)
  | listing (cs : List Customer)

/-- A ticket payload kept in `state.tickets_data`. -/
structure Ticket where
  ticket_id : Nat
  customer_id : Nat
  issue : String
  priority : String

/-- The shared state record threaded through the graph
(`AgentState` in `src/coordination/graph_coordinator.py`). -/
structure AgentState where
  query : String := ""
  current_agent : String := "router"
  next_agent : Option String := none
  coordination_history : List HistEntry := []
  customer_data : Option CustomerPayload := none
  tickets_data : Option (List Ticket) := none
  messages : List MessageEntry := []
  final_response : String := ""
  status : String := "in_progress"
  iteration_count : Nat := 0
  max_iterations : Nat := 10

/-- `AgentState.add_message`: appends one entry to `messages` and one entry
(with `step = len(coordination_history) + 1`) to `coordination_history`.
`ts` is the value of `datetime.now().isoformat()`, an external input. -/
def AgentState.add_message (s : AgentState) (from_agent to_agent content : String)
    (data : Option PyDict) (ts : String) : AgentState :=
  let msg : MessageEntry :=
    { timestamp := ts, from_agent := from_agent, to_agent := to_agent,
      content := content, data := data.getD [] }
  let s := { s with messages := s.messages ++ [msg] }
  { s with coordination_history := s.coordination_history ++
      [{ step := s.coordination_history.length + 1,
         action := from_agent ++ " → " ++ to_agent,
         message := content }] }

/-- `AgentState.increment_iteration`: bumps the counter and, when the
counter has reached `max_iterations`, forces `status = "error"` with the
user-facing message. -/
def AgentState.increment_iteration (s : AgentState) : AgentState :=
  let s := { s with iteration_count := s.iteration_count + 1 }
  if s.iteration_count ≥ s.max_iterations then
    { s with status := "error",
             final_response := "Max coordination steps reached. Please simplify your query" }
  else s

/-- The `GraphCoordinator`: its `nodes` and `routing_functions` dicts,
embedded as association lists (the `execution_log`, used only for
printing, is omitted). -/
structure GraphCoordinator where
  nodes : List (String × (AgentState → AgentState))
  routing_functions : List (String × (AgentState → Option String))

/-- `GraphCoordinator.route_next`: applies the routing function registered
for `state.current_agent`, or returns `none` when there is none. -/
def GraphCoordinator.route_next (c : GraphCoordinator) (s : AgentState) : Option String :=
  match c.routing_functions.lookup s.current_agent with
  | some f => f s
  | none => none

/-- The guard of the `while` loop in `GraphCoordinator.execute`:
`state.status == "in_progress" and state.iteration_count < state.max_iterations`. -/
def loopCond (s : AgentState) : Bool :=
  s.status == "in_progress" && s.iteration_count < s.max_iterations

/-- One iteration of the body of the `while` loop in
`GraphCoordinator.execute`: increment the counter, look up the current
node (unknown node forces `status = "error"`), run it, stop on a terminal
status, otherwise route — no next agent forces `status = "completed"`,
else `current_agent` is updated. Every `break` in the Python body leaves
a state on which `loopCond` is false, so iterating this body under
`loopCond` is exactly the Python loop. -/
def execBody (c : GraphCoordinator) (s : AgentState) : AgentState :=
  let s := s.increment_iteration
  match c.nodes.lookup s.current_agent with
  | none => { s with status := "error" }
  | some f =>
    let s := f s
    if s.status = "completed" ∨ s.status = "error" then s
    else
      match c.route_next s with
      | none => { s with status := "completed" }
      | some nxt => { s with current_agent := nxt }

/-- `execN c n s` is the state after at most `n` iterations of the
`execute` while-loop: the fuel-indexed embedding of `GraphCoordinator.execute`.
When `loopCond (execN c n s) = false`, the Python loop has terminated
within `n` iterations and `execN c n s` is its result. -/
def execN (c : GraphCoordinator) : Nat → AgentState → AgentState
  | 0, s => s
  | n + 1, s => if loopCond s then execN c n (execBody c s) else s

/-- A state failing the loop guard is a fixed point of the loop. -/
theorem execN_stable (c : GraphCoordinator) {s : AgentState}
    (h : loopCond s = false) : ∀ n, execN c n s = s
  | 0 => rfl
  | n + 1 => by simp [execN, h]

/-- Running `m + n` iterations is running `m`, then `n` more. -/
theorem execN_add (c : GraphCoordinator) (m n : Nat) (s : AgentState) :
    execN c (m + n) s = execN c n (execN c m s) := by
  induction m generalizing s with
  | zero => simp [execN]
  | succ m ih =>
    rw [Nat.succ_add, execN, execN]
    by_cases h : loopCond s
    · simp [h, ih]
    · simp at h
      simp [h, execN_stable c h]

/-- `increment_iteration` always bumps the counter by one and leaves the
ceiling unchanged, whichever branch is taken. -/
theorem increment_counters (s : AgentState) :
    s.increment_iteration.iteration_count = s.iteration_count + 1 ∧
    s.increment_iteration.max_iterations = s.max_iterations := by
  refine ⟨?_, ?_⟩ <;> simp only [AgentState.increment_iteration] <;> split <;> rfl

/-- The deliberately cyclic configuration from the spec's ceiling scenario:
two registered nodes that leave the state untouched, with routing
functions sending each to the other. -/
def cyclicCoordinator : GraphCoordinator :=
  { nodes := [("a", fun s => s), ("b", fun s => s)],
    routing_functions := [("a", fun _ => some "b"), ("b", fun _ => some "a")] }

/-- Initial state for the cyclic scenario: entry node `"a"`, default
ceiling `max_iterations = 10`. -/
def cyclicStart : AgentState := { query := "loop", current_agent := "a" }

/-- C3: with `max_iterations = 10` and a cyclic routing table (`a` and `b`
routing to each other, neither setting a terminal status), the run ends
with `status = "error"`, `iteration_count` exactly 10 and the user-facing
max-coordination-steps message; after 9 iterations the loop is still
`in_progress`, and no further iterations change the result. -/
theorem cyclic_routing_hits_ceiling :
    (execN cyclicCoordinator 10 cyclicStart).status = "error" ∧
    (execN cyclicCoordinator 10 cyclicStart).iteration_count = 10 ∧
    (execN cyclicCoordinator 10 cyclicStart).final_response =
      "Max coordination steps reached. Please simplify your query" ∧
    (execN cyclicCoordinator 9 cyclicStart).status = "in_progress" ∧
    ∀ n, execN cyclicCoordinator (10 + n) cyclicStart = execN cyclicCoordinator 10 cyclicStart := by
  refine ⟨by decide, by decide, by decide, by decide, fun n => ?_⟩
  rw [execN_add]
  exact execN_stable _ (by decide) n

/-- C1 (amended): a state whose status is already `"completed"` or
`"error"` is absorbing — however many further loop iterations run, no
node function is invoked and the state is returned unchanged. -/
theorem terminal_status_absorbing (c : GraphCoordinator) (s : AgentState) (n : Nat)
    (h : s.status = "completed" ∨ s.status = "error") : execN c n s = s := by
  have hc : loopCond s = false := by
    rcases h with h | h <;> simp [loopCond, h]
  exact execN_stable c hc n

/-- Witness for `terminal_status_absorbing` at a concrete completed state. -/
theorem terminal_status_absorbing_witness :
    execN cyclicCoordinator 5 { query := "done", status := "completed" } =
      { query := "done", status := "completed" } :=
  terminal_status_absorbing cyclicCoordinator { query := "done", status := "completed" } 5
    (Or.inl rfl)

/-- A probe configuration for the ceiling iteration: its single node
records the status it observes into `final_response`, so any invocation
after `status` turned `"error"` is visible in the final state. -/
def probeCoordinator : GraphCoordinator :=
  { nodes := [("a", fun s => { s with final_response := s.status })],
    routing_functions := [("a", fun _ => some "a")] }

/-- Start state for the probe: ceiling 1, so the very first iteration is
the ceiling iteration. -/
def probeStart : AgentState := { query := "probe", current_agent := "a", max_iterations := 1 }

/-- C1 counterexample: in the iteration in which `increment_iteration`
sets `status = "error"` (the ceiling check), the engine still invokes the
current node function once: the probe node overwrites `final_response`
with the `"error"` status it observed, wiping out the user-facing
max-coordination-steps message that `increment_iteration` had written. -/
theorem node_runs_in_ceiling_iteration :
    (execN probeCoordinator 1 probeStart).status = "error" ∧
    (execN probeCoordinator 1 probeStart).final_response = "error" :=
  ⟨by decide, by decide⟩

/-- A registered node function that resets the iteration counter, keeping
the `execute` loop alive forever. -/
def resetCoordinator : GraphCoordinator :=
  { nodes := [("a", fun s => { s with iteration_count := 0 })],
    routing_functions := [("a", fun _ => some "a")] }

/-- Start state for the counter-resetting configuration (ceiling 10). -/
def resetStart : AgentState := { query := "reset", current_agent := "a" }

/-- C2 counterexample: with a registered node that writes
`iteration_count` back to 0, the loop guard still holds after
`max_iterations = 10` full iterations — `execute` does not terminate
within `max_iterations` loop iterations for every configuration of
registered nodes. -/
theorem loop_outlives_ceiling :
    loopCond (execN resetCoordinator 10 resetStart) = true ∧
    (execN resetCoordinator 10 resetStart).status = "in_progress" :=
  ⟨by decide, by decide⟩

/-- A coordinator's registered node functions leave the iteration counter
and the ceiling unchanged — true of every node in the repository, which
never touch `iteration_count` or `max_iterations`. -/
def PreservesCounters (c : GraphCoordinator) : Prop :=
  ∀ k f, c.nodes.lookup k = some f →
    ∀ s : AgentState, (f s).iteration_count = s.iteration_count ∧
      (f s).max_iterations = s.max_iterations

/-- Under `PreservesCounters`, each loop iteration increments the counter
by exactly one and keeps the ceiling. -/
theorem execBody_counters (c : GraphCoordinator) (hc : PreservesCounters c) (s : AgentState) :
    (execBody c s).iteration_count = s.iteration_count + 1 ∧
    (execBody c s).max_iterations = s.max_iterations := by
  obtain ⟨h1, h2⟩ := increment_counters s
  rcases hl : c.nodes.lookup s.increment_iteration.current_agent with _ | f
  · simp only [execBody, hl]
    exact ⟨h1, h2⟩
  · obtain ⟨hf1, hf2⟩ := hc _ _ hl s.increment_iteration
    simp only [execBody, hl]
    split
    · exact ⟨hf1.trans h1, hf2.trans h2⟩
    · split
      · exact ⟨hf1.trans h1, hf2.trans h2⟩
      · exact ⟨hf1.trans h1, hf2.trans h2⟩

/-- Under `PreservesCounters`, after `max_iterations - iteration_count`
iterations the loop guard has failed. -/
theorem execN_guard_vanishes (c : GraphCoordinator) (hc : PreservesCounters c) :
    ∀ d s, s.max_iterations - s.iteration_count = d → loopCond (execN c d s) = false := by
  intro d
  induction d with
  | zero =>
    intro s hd
    have hnlt : ¬ s.iteration_count < s.max_iterations := by omega
    simp [execN, loopCond, hnlt]
  | succ d ih =>
    intro s hd
    rw [execN]
    by_cases h : loopCond s = true
    · rw [if_pos h]
      obtain ⟨hb1, hb2⟩ := execBody_counters c hc s
      exact ih (execBody c s) (by omega)
    · rw [if_neg h]
      simpa using h

/-- Under `PreservesCounters`, the counter never climbs past the ceiling. -/
theorem execN_count_le (c : GraphCoordinator) (hc : PreservesCounters c) :
    ∀ n s, s.iteration_count ≤ s.max_iterations →
      (execN c n s).iteration_count ≤ s.max_iterations := by
  intro n
  induction n with
  | zero => intro s hle; exact hle
  | succ n ih =>
    intro s hle
    rw [execN]
    by_cases h : loopCond s = true
    · rw [if_pos h]
      have hlt : s.iteration_count < s.max_iterations := by
        simp [loopCond] at h
        exact h.2
      obtain ⟨hb1, hb2⟩ := execBody_counters c hc s
      have := ih (execBody c s) (by omega)
      omega
    · rw [if_neg h]
      exact hle

/-- C2 (amended): for every initial state and every configuration whose
registered node functions leave `iteration_count` and `max_iterations`
unchanged (as all of the repository's nodes do), the `execute` loop guard
fails after at most `max_iterations` iterations — the loop terminates
within the ceiling — and, provided the initial counter does not already
exceed the ceiling, the returned state's `iteration_count` never exceeds
`max_iterations`. -/
theorem execute_terminates_within_ceiling (c : GraphCoordinator) (s : AgentState)
    (hc : PreservesCounters c) :
    loopCond (execN c s.max_iterations s) = false ∧
    (s.iteration_count ≤ s.max_iterations →
      (execN c s.max_iterations s).iteration_count ≤ s.max_iterations) := by
  constructor
  · have h0 : loopCond (execN c (s.max_iterations - s.iteration_count) s) = false :=
      execN_guard_vanishes c hc _ s rfl
    have hsplit : s.max_iterations =
        (s.max_iterations - s.iteration_count) +
          (s.max_iterations - (s.max_iterations - s.iteration_count)) := by omega
    rw [hsplit, execN_add, execN_stable c h0]
    exact h0
  · intro hle
    exact execN_count_le c hc s.max_iterations s hle

/-- Witness for `execute_terminates_within_ceiling` at the concrete
cyclic configuration. -/
theorem execute_terminates_within_ceiling_witness :
    loopCond (execN cyclicCoordinator cyclicStart.max_iterations cyclicStart) = false ∧
    (cyclicStart.iteration_count ≤ cyclicStart.max_iterations →
      (execN cyclicCoordinator cyclicStart.max_iterations cyclicStart).iteration_count ≤
        cyclicStart.max_iterations) := by
  apply execute_terminates_within_ceiling
  intro k f hl s
  simp only [cyclicCoordinator, List.lookup] at hl
  cases hka : k == "a" <;> simp only [hka] at hl
  · cases hkb : k == "b" <;> simp only [hkb] at hl
    · exact Option.noConfusion hl
    · cases hl
      exact ⟨rfl, rfl⟩
  · cases hl
    exact ⟨rfl, rfl⟩

/-- The result dictionary returned by the external collaborator call
`data_agent.process(state.query, context=None)`: `success` truthiness,
and the optional keys `customer`, `customers`, `content`, `operation`
(absent key = `none`). -/
structure DAResult where
  success : Bool := false
  customer : Option Customer := none
  customers : Option (List Customer) := none
  content : Option String := none
  operation : Option String := none

/-- `data_agent_node` from `src/coordination/agent_nodes.py`: stores the
collaborator's customer payload into `customer_data` on success
(`"customer" in result` checked before `"customers"`), appends the
handoff message with `result.get("content", "Data operation completed")`,
and then sets `next_agent = "router_final"`. The collaborator's reply
`result` and the clock value `ts` are passed in as parameters. -/
def data_agent_node (result : DAResult) (ts : String) (state : AgentState) : AgentState :=
  let state :=
    if result.success then
      match result.customer with
      | some c => { state with customer_data := some (CustomerPayload.single c) }
      | none =>
        match result.customers with
        | some cs => { state with customer_data := some (CustomerPayload.listing cs) }
        | none => state
    else state
  let state := state.add_message "data_agent" "router"
    (result.content.getD "Data operation completed")
    (some [("success", PyVal.bool result.success),
           ("operation", (result.operation.map PyVal.str).getD PyVal.none_)]) ts
  { state with next_agent := some "router_final" }

/-- An input state that already carries an explicit next-hop request. -/
def hintedState : AgentState :=
  { query := "get customer 1", current_agent := "data_agent",
    next_agent := some "support_agent" }

/-- C4 counterexample: on a state whose `next_agent` is already set to
`"support_agent"`, the data-retrieval node does not leave it unchanged —
it overwrites it with `"router_final"`. -/
theorem data_node_overwrites_hint :
    hintedState.next_agent = some "support_agent" ∧
    (data_agent_node { success := false } "t0" hintedState).next_agent = some "router_final" :=
  ⟨rfl, rfl⟩

/-- C4 (amended): for every collaborator result, clock value and input
state — whether or not a next-hop was already requested — running the
data-retrieval node sets `next_agent` to the synthesis node
`"router_final"`, unconditionally overwriting any existing value. -/
theorem data_node_always_routes_to_synthesis (result : DAResult) (ts : String)
    (state : AgentState) :
    (data_agent_node result ts state).next_agent = some "router_final" := rfl

/-- The operation-inference step of `CustomerDataAgent.process`
(lines 101–109): `"get"`/`"show"`/`"find"` select `retrieve` first, then
`"update"`/`"change"`/`"modify"` select `update`, then `"list"`/`"all"`
select `list`, and otherwise the default is `retrieve`. All tests are
substring tests on the lowercased query. -/
def determine_operation (query : String) : String :=
  let ql := pyLower query
  if pyContains ql "get" || pyContains ql "show" || pyContains ql "find" then
    "retrieve"
  else if pyContains ql "update" || pyContains ql "change" || pyContains ql "modify" then
    "update"
  else if pyContains ql "list" || pyContains ql "all" then
    "list"
  else
    "retrieve"

/-- C5 counterexample: a query containing the update verb `"update"`
together with the retrieve verb `"get"` selects `retrieve`, not `update` —
update-verbs do not dominate every other verb class. -/
theorem update_loses_to_get :
    determine_operation "please get and update customer 3" = "retrieve" ∧
    determine_operation "please get and update customer 3" ≠ "update" :=
  ⟨by decide, by decide⟩

/-- C5 (amended): the actual priority order is retrieve-verbs
(`get`/`show`/`find`) > update-verbs (`update`/`change`/`modify`) >
list-verbs (`list`/`all`) > default-retrieve: a query containing an
update verb selects `update` regardless of list verbs, provided no
retrieve verb occurs in it. -/
theorem update_beats_list_verbs (q : String)
    (hup : pyContains (pyLower q) "update" = true ∨ pyContains (pyLower q) "change" = true ∨
      pyContains (pyLower q) "modify" = true)
    (hget : pyContains (pyLower q) "get" = false)
    (hshow : pyContains (pyLower q) "show" = false)
    (hfind : pyContains (pyLower q) "find" = false) :
    determine_operation q = "update" := by
  rcases hup with h | h | h <;>
    simp [determine_operation, hget, hshow, hfind, h]

/-- Witness for `update_beats_list_verbs`: a query containing both an
update verb and both list verbs still selects `update`. -/
theorem update_beats_list_verbs_witness :
    determine_operation "update customer 3, list all records" = "update" :=
  update_beats_list_verbs "update customer 3, list all records"
    (Or.inl (by decide)) (by decide) (by decide) (by decide)

/-- Python's `\s` character class over the ASCII text handled here. -/
def pySpace (c : Char) : Bool :=
  c = ' ' || c = '\t' || c = '\n' || c = '\r' || c = '\x0b' || c = '\x0c'

/-- Matching the regex `lit\s+(\d+)` at the head of `cs`: the literal
token, then at least one whitespace character, then the captured maximal
run of digits. -/
def matchLitWsDigits (lit : List Char) (cs : List Char) : Option (List Char) :=
  if lit.isPrefixOf cs then
    let rest := cs.drop lit.length
    let sp := rest.takeWhile pySpace
    let ds := (rest.drop sp.length).takeWhile Char.isDigit
    if !sp.isEmpty && !ds.isEmpty then some ds else none
  else none

/-- Matching the regex `#(\d+)` at the head of `cs`. -/
def matchHashDigits : List Char → Option (List Char)
  | [] => none
  | c :: t =>
    if c = '#' then
      let ds := t.takeWhile Char.isDigit
      if ds.isEmpty then none else some ds
    else none

/-- `re.search` semantics for the head matchers above: try every start
position from the left and return the first successful match's capture. -/
def searchPat (m : List Char → Option (List Char)) : List Char → Option (List Char)
  | [] => m []
  | c :: t =>
    match m (c :: t) with
    | some r => some r
    | none => searchPat m t

/-- `CustomerDataAgent.extract_customer_id`: tries the ordered patterns
`id\s+(\d+)`, `customer\s+(\d+)`, `#(\d+)` with `re.search` on the
lowercased query and returns the first capture, or `None`. -/
def extract_customer_id (query : String) : Option String :=
  let ql := (pyLower query).data
  match searchPat (matchLitWsDigits "id".data) ql with
  | some ds => some (String.mk ds)
  | none =>
    match searchPat (matchLitWsDigits "customer".data) ql with
    | some ds => some (String.mk ds)
    | none =>
      match searchPat matchHashDigits ql with
      | some ds => some (String.mk ds)
      | none => none

/-- C6: entity-ID extraction returns the capture of the first pattern in
the fixed order that matches anywhere in the lowercased query: on
`"please refund, customer 42, ticket #7"` the customer-number pattern
fires before the hash-number pattern and yields `"42"`; whenever the
first pattern matches its capture is returned outright; and when no
pattern matches the result is `none`. -/
theorem extract_customer_id_first_pattern :
    extract_customer_id "please refund, customer 42, ticket #7" = some "42" ∧
    (∀ q ds, searchPat (matchLitWsDigits "id".data) (pyLower q).data = some ds →
      extract_customer_id q = some (String.mk ds)) ∧
    (∀ q, searchPat (matchLitWsDigits "id".data) (pyLower q).data = none →
      searchPat (matchLitWsDigits "customer".data) (pyLower q).data = none →
      searchPat matchHashDigits (pyLower q).data = none →
      extract_customer_id q = none) := by
  refine ⟨by decide, ?_, ?_⟩
  · intro q ds h
    simp [extract_customer_id, h]
  · intro q h1 h2 h3
    simp [extract_customer_id, h1, h2, h3]

/-- Witness for `extract_customer_id_first_pattern`: a query matched by
none of the three patterns yields `none`. -/
theorem extract_customer_id_first_pattern_witness :
    extract_customer_id "hello there" = none :=
  extract_customer_id_first_pattern.2.2 "hello there" (by decide) (by decide) (by decide)

/-- The high-priority keyword list of `SupportAgent.assess_priority`. -/
def high_priority_keywords : List String :=
  ["urgent", "immediately", "asap", "critical", "billing", "charged", "refund",
   "security", "hack", "breach", "down", "outage"]

/-- The medium-priority keyword list of `SupportAgent.assess_priority`. -/
def medium_priority_keywords : List String :=
  ["upgrade", "change", "modify", "request", "feature", "improvement"]

/-- `SupportAgent.assess_priority`: first matching tier wins — any
high-priority keyword in the lowercased query gives `"high"`, else any
medium-priority keyword gives `"medium"`, else `"low"`. -/
def assess_priority (query : String) : String :=
  let ql := pyLower query
  if high_priority_keywords.any (fun k => pyContains ql k) then "high"
  else if medium_priority_keywords.any (fun k => pyContains ql k) then "medium"
  else "low"

/-- C7: for every query containing at least one high-tier keyword,
priority assessment returns `"high"`, whatever medium-tier keywords also
appear — the high-priority list is checked first. -/
theorem assess_priority_high_dominates (q : String)
    (h : ∃ k ∈ high_priority_keywords, pyContains (pyLower q) k = true) :
    assess_priority q = "high" := by
  have hany : high_priority_keywords.any (fun k => pyContains (pyLower q) k) = true := by
    rcases h with ⟨k, hk, hc⟩
    exact List.any_eq_true.mpr ⟨k, hk, hc⟩
  simp [assess_priority, hany]

/-- Witness for `assess_priority_high_dominates`: a query containing both
`"urgent"` (high tier) and `"upgrade"` (medium tier) is assessed `"high"`. -/
theorem assess_priority_high_dominates_witness :
    assess_priority "urgent: please upgrade my plan" = "high" :=
  assess_priority_high_dominates "urgent: please upgrade my plan" (by decide)

/-- A `Message` on the bus (`src/coordination/message_bus.py`): identifier
`msg_<counter>`, sender, recipient, content, optional payload, timestamp
(filled from the clock, passed here as a parameter). -/
structure BusMessage where
  id : String
  from_agent : String
  to_agent : String
  content : String
  data : Option PyDict
  timestamp : String

/-- The `MessageBus`: per-agent inbox queues (an association list keyed
by agent name, each queue in FIFO order), the append-only
`message_history`, and the `message_counter`. -/
structure MessageBus where
  inboxes : List (String × List BusMessage) := []
  message_history : List BusMessage := []
  message_counter : Nat := 0

/-- Replace the queue stored under `name` in the inbox table. -/
def updateInbox (l : List (String × List BusMessage)) (name : String)
    (q : List BusMessage) : List (String × List BusMessage) :=
  l.map (fun p => if p.1 == name then (p.1, q) else p)

/-- `MessageBus.register_agent`: creates an empty inbox for `name` unless
one already exists. -/
def MessageBus.register_agent (bus : MessageBus) (name : String) : MessageBus :=
  if (bus.inboxes.lookup name).isSome then bus
  else { bus with inboxes := bus.inboxes ++ [(name, [])] }

/-- `MessageBus.send_message`: raises `ValueError` (embedded as
`Except.error`) when the recipient has no inbox — this check precedes the
counter increment, the message construction, the inbox insertion and the
history append, so a failed send leaves the bus exactly as it was (the
error carries no successor state). On success the counter is bumped, the
message `msg_<counter>` is enqueued at the recipient and appended to the
history, and the message id is returned. -/
def MessageBus.send_message (bus : MessageBus) (from_agent to_agent content : String)
    (data : Option PyDict) (ts : String) : Except String (MessageBus × String) :=
  match bus.inboxes.lookup to_agent with
  | none => .error ("Agent " ++ to_agent ++ " not registered")
  | some q =>
    let counter := bus.message_counter + 1
    let msg : BusMessage :=
      { id := "msg_" ++ toString counter, from_agent := from_agent, to_agent := to_agent,
        content := content, data := data, timestamp := ts }
    .ok ({ bus with
            inboxes := updateInbox bus.inboxes to_agent (q ++ [msg]),
            message_history := bus.message_history ++ [msg],
            message_counter := counter },
         msg.id)

/-- `MessageBus.receive_message`: raises `ValueError` for an unregistered
agent; otherwise dequeues the oldest message, or yields `none` when the
inbox is empty (the `queue.Empty` timeout path — blocking time is
abstracted away, so the timeout argument is dropped). -/
def MessageBus.receive_message (bus : MessageBus) (agent_name : String) :
    Except String (MessageBus × Option BusMessage) :=
  match bus.inboxes.lookup agent_name with
  | none => .error ("Agent " ++ agent_name ++ " not registered")
  | some [] => .ok (bus, none)
  | some (m :: rest) =>
    .ok ({ bus with inboxes := updateInbox bus.inboxes agent_name rest }, some m)

/-- C8: sending to an unregistered recipient fails with the
`"Agent <name> not registered"` error, and atomically: the registration
check precedes every mutation, so the error result carries no successor
bus — history, counter and all inboxes are exactly the caller's original
ones. -/
theorem send_unregistered_fails (bus : MessageBus) (from_agent to_agent content : String)
    (data : Option PyDict) (ts : String)
    (h : bus.inboxes.lookup to_agent = none) :
    bus.send_message from_agent to_agent content data ts =
      .error ("Agent " ++ to_agent ++ " not registered") := by
  simp [MessageBus.send_message, h]

/-- Witness for `send_unregistered_fails`: sending on a fresh bus to the
never-registered `"ghost"` fails without touching the bus. -/
theorem send_unregistered_fails_witness :
    MessageBus.send_message {} "router" "ghost" "hello" none "t1" =
      .error "Agent ghost not registered" := by
  have e : ("Agent " ++ "ghost" ++ " not registered" : String) =
      "Agent ghost not registered" := by decide
  rw [send_unregistered_fails {} "router" "ghost" "hello" none "t1" rfl, e]

/-- C9: `receive_message` for a never-registered agent raises the
`"Agent <name> not registered"` error instead of returning `none`; the
`none` result belongs only to registered agents whose inbox is empty. -/
theorem receive_unregistered_raises (bus : MessageBus) (agent_name : String) :
    (bus.inboxes.lookup agent_name = none →
      bus.receive_message agent_name =
        .error ("Agent " ++ agent_name ++ " not registered")) ∧
    (bus.inboxes.lookup agent_name = some [] →
      bus.receive_message agent_name = .ok (bus, none)) := by
  constructor
  · intro h
    simp [MessageBus.receive_message, h]
  · intro h
    simp [MessageBus.receive_message, h]

/-- Witness for `receive_unregistered_raises`: on a fresh bus, receiving
as `"ghost"` errors, while a registered `"alice"` with an empty inbox
gets `none`. -/
theorem receive_unregistered_raises_witness :
    MessageBus.receive_message {} "ghost" = .error "Agent ghost not registered" ∧
    MessageBus.receive_message (MessageBus.register_agent {} "alice") "alice" =
      .ok (MessageBus.register_agent {} "alice", none) := by
  constructor
  · have e : ("Agent " ++ "ghost" ++ " not registered" : String) =
        "Agent ghost not registered" := by decide
    rw [(receive_unregistered_raises {} "ghost").1 rfl, e]
  · exact (receive_unregistered_raises (MessageBus.register_agent {} "alice") "alice").2 rfl

/-- The arguments of one `AgentState.add_message` call (with the clock
value `ts` it observes). -/
structure MsgCall where
  from_agent : String
  to_agent : String
  content : String
  data : Option PyDict
  ts : String

/-- A sequence of `add_message` calls applied in order. -/
def applyCalls (s : AgentState) (calls : List MsgCall) : AgentState :=
  calls.foldl (fun st c => st.add_message c.from_agent c.to_agent c.content c.data c.ts) s

/-- One `add_message` call keeps the step fields of
`coordination_history` equal to `1, …, n`. -/
theorem add_message_steps (s : AgentState) (f t m : String) (d : Option PyDict) (ts : String)
    (h : s.coordination_history.map HistEntry.step =
      List.range' 1 s.coordination_history.length) :
    (s.add_message f t m d ts).coordination_history.map HistEntry.step =
      List.range' 1 (s.add_message f t m d ts).coordination_history.length := by
  have e : (s.add_message f t m d ts).coordination_history =
      s.coordination_history ++
        [{ step := s.coordination_history.length + 1, action := f ++ " → " ++ t,
           message := m }] := rfl
  rw [e, List.map_append, h, List.length_append]
  simp [List.range'_1_concat, Nat.add_comm]

/-- C10: every `add_message` call appends exactly one entry to `messages`
and one to `coordination_history`, earlier entries of both lists survive
unchanged as a prefix, and after any sequence of calls the step fields of
`coordination_history` are exactly the consecutive integers `1, …, n`
where `n` is the list's length. -/
theorem add_message_audit (s : AgentState) (calls : List MsgCall)
    (h : s.coordination_history.map HistEntry.step =
      List.range' 1 s.coordination_history.length) :
    (applyCalls s calls).messages.length = s.messages.length + calls.length ∧
    (applyCalls s calls).coordination_history.length =
      s.coordination_history.length + calls.length ∧
    (∃ t, (applyCalls s calls).messages = s.messages ++ t) ∧
    (∃ t, (applyCalls s calls).coordination_history = s.coordination_history ++ t) ∧
    (applyCalls s calls).coordination_history.map HistEntry.step =
      List.range' 1 (applyCalls s calls).coordination_history.length := by
  induction calls generalizing s with
  | nil =>
    exact ⟨rfl, rfl, ⟨[], by simp [applyCalls]⟩, ⟨[], by simp [applyCalls]⟩, h⟩
  | cons c cs ih =>
    have hac : applyCalls s (c :: cs) =
        applyCalls (s.add_message c.from_agent c.to_agent c.content c.data c.ts) cs := rfl
    obtain ⟨l1, l2, ⟨t1, ht1⟩, ⟨t2, ht2⟩, l5⟩ :=
      ih (s.add_message c.from_agent c.to_agent c.content c.data c.ts)
        (add_message_steps s c.from_agent c.to_agent c.content c.data c.ts h)
    have hm : (s.add_message c.from_agent c.to_agent c.content c.data c.ts).messages.length =
        s.messages.length + 1 := by
      simp [AgentState.add_message]
    have hh : (s.add_message c.from_agent c.to_agent c.content
        c.data c.ts).coordination_history.length = s.coordination_history.length + 1 := by
      simp [AgentState.add_message]
    refine ⟨?_, ?_, ?_, ?_, ?_⟩
    · rw [hac, l1, hm, List.length_cons]
      omega
    · rw [hac, l2, hh, List.length_cons]
      omega
    · obtain ⟨u1, hu1⟩ : ∃ u, (s.add_message c.from_agent c.to_agent c.content
          c.data c.ts).messages = s.messages ++ u := ⟨_, rfl⟩
      rw [hu1, List.append_assoc] at ht1
      exact ⟨_, by rw [hac]; exact ht1⟩
    · obtain ⟨u2, hu2⟩ : ∃ u, (s.add_message c.from_agent c.to_agent c.content
          c.data c.ts).coordination_history = s.coordination_history ++ u := ⟨_, rfl⟩
      rw [hu2, List.append_assoc] at ht2
      exact ⟨_, by rw [hac]; exact ht2⟩
    · rw [hac]
      exact l5

/-- The fresh per-request state (only the query populated). -/
def initState : AgentState := { query := "Get customer information for ID 5" }

/-- A concrete two-call sequence for the audit-trail witness. -/
def demoCalls : List MsgCall :=
  [{ from_agent := "router", to_agent := "data_agent",
     content := "Please handle this query", data := none, ts := "t1" },
   { from_agent := "data_agent", to_agent := "router",
     content := "Data operation completed", data := none, ts := "t2" }]

/-- Witness for `add_message_audit`: after two calls on a fresh state the
step fields are exactly `1, 2`. -/
theorem add_message_audit_witness :
    (applyCalls initState demoCalls).coordination_history.map HistEntry.step =
      List.range' 1 (applyCalls initState demoCalls).coordination_history.length :=
  (add_message_audit initState demoCalls rfl).2.2.2.2
